import Mathlib

/-!
Verification of the cantact driver core (`src/driver/src/lib.rs`): the
bit-timing search, the Frame/HostFrame codec, and the `Interface`
configuration/lifecycle state machine.

Machine integers (`u32`, `u8`, `usize`) are modelled as `Nat`; the only
place where two's-complement wrap-around matters is the `u32` subtraction
`btq_rounded - seg1 - 1` inside `calculate_bit_timing`, which is modelled
explicitly modulo `2 ^ 32` (`wrapSub32`).  Fallible Rust functions
returning `Result` are modelled with `Except`; a Rust `panic!` is
modelled as `Option.none`.  Device-transport calls (`Device::set_mode`,
`Device::set_bit_timing`, ...) are `.unwrap()`ed in the source, i.e.
the driver treats the transport as infallible at these call sites, so the
model records the issued commands as explicit outputs instead.
-/

/-- Modelled from the spec: the device module (`device/gsusb.rs`) is not part
of the sources under verification.  Per §3, the three high-order bits of the
32-bit wire CAN-ID field are reserved for the extended/RTR/error flags; the
extended-ID flag is the topmost bit. -/
def GSUSB_EXT_FLAG : Nat := 0x80000000

/-- Modelled from the spec: RTR flag bit of the wire CAN-ID field (§3). -/
def GSUSB_RTR_FLAG : Nat := 0x40000000

/-- Modelled from the spec: error-frame flag bit of the wire CAN-ID field (§3). -/
def GSUSB_ERR_FLAG : Nat := 0x20000000

/-- Modelled from the spec: the reserved "not an echo" sentinel for the echo
identifier.  The source comments it as "loopback frame if echo_id is not -1",
i.e. the sentinel is `-1` as a `u32`. -/
def GSUSB_RX_ECHO_ID : Nat := 0xFFFFFFFF

/-- Modelled from the spec: CAN-FD flag bit in the wire frame's flag byte (§4.2). -/
def GS_CAN_FLAG_FD : Nat := 2

/-- Modelled from the spec: bit-rate-switch flag bit in the flag byte (§4.2). -/
def GS_CAN_FLAG_BRS : Nat := 4

/-- Modelled from the spec: error-state-indicator flag bit in the flag byte (§4.2). -/
def GS_CAN_FLAG_ESI : Nat := 8

/-- Modelled from the spec: listen-only capability bit of the device feature
bitmask (§6, a single-bit capability flag). -/
def GS_CAN_FEATURE_LISTEN_ONLY : Nat := 1

/-- Modelled from the spec: loopback capability bit of the feature bitmask (§6). -/
def GS_CAN_FEATURE_LOOP_BACK : Nat := 2

/-- Modelled from the spec: CAN-FD capability bit of the feature bitmask (§6). -/
def GS_CAN_FEATURE_FD : Nat := 256

/-- Modelled from the spec: listen-only bit of the mode-flag word built by `start`. -/
def GS_CAN_MODE_LISTEN_ONLY : Nat := 1

/-- Modelled from the spec: loopback bit of the mode-flag word built by `start`. -/
def GS_CAN_MODE_LOOP_BACK : Nat := 2

/-- Modelled from the spec: CAN-FD bit of the mode-flag word built by `start`. -/
def GS_CAN_MODE_FD : Nat := 256

/-- Modelled from the spec: `CanMode::Start as u32` (§4.4 "start" mode command). -/
def CanModeStart : Nat := 1

/-- Modelled from the spec: `CanMode::Reset as u32` (§4.4 "reset" mode command). -/
def CanModeReset : Nat := 0

/-- Errors generated by the library (`enum Error` in `src/driver/src/lib.rs`).
`DeviceError`'s wrapped transport error is abstracted away. -/
inductive Error where
  | DeviceError
  | DeviceNotFound
  | Timeout
  | Running
  | NotRunning
  | InvalidChannel
  | InvalidBitrate (bitrate : Nat)
  | UnsupportedFeature (name : String)
deriving DecidableEq, Repr

/-- Bit timing register set (`BitTiming` of the device module; field layout
per §4.1: prescaler, propagation segment, phase segments, sync jump width). -/
structure BitTiming where
  brp : Nat
  prop_seg : Nat
  phase_seg1 : Nat
  phase_seg2 : Nat
  sjw : Nat
deriving DecidableEq, Repr

/-- Modelled from the spec: the `Mode` record passed to `Device::set_mode`
(§6): a mode command word and a mode-flag word. -/
structure Mode where
  mode : Nat
  flags : Nat
deriving DecidableEq, Repr

/-- Controller Area Network frame (`struct Frame`).  `data` is the payload
byte vector; `timestamp` is an abstract receive timestamp (the codec never
sets it, so its unit is irrelevant here). -/
structure Frame where
  can_id : Nat
  can_dlc : Nat
  channel : Nat
  data : List Nat
  ext : Bool
  fd : Bool
  brs : Bool
  esi : Bool
  loopback : Bool
  err : Bool
  rtr : Bool
  timestamp : Option Nat
deriving DecidableEq, Repr

/-- Modelled from the spec: the wire frame (`HostFrame`, §3): echo identifier,
flag byte, reserved byte, 32-bit CAN-ID with embedded flag bits, DLC, channel
index, 64-byte data buffer. -/
structure HostFrame where
  echo_id : Nat
  flags : Nat
  reserved : Nat
  can_id : Nat
  can_dlc : Nat
  channel : Nat
  data : List Nat
deriving DecidableEq, Repr

/-- `Frame::data_as_array`: copy `min (data.len()) 64` payload bytes into a
fixed 64-byte buffer, zero-padding the remainder. -/
def Frame.data_as_array (f : Frame) : List Nat :=
  f.data.take 64 ++ List.replicate (64 - min f.data.length 64) 0

/-- `Frame::to_host_frame`: OR the extended/RTR/error flag bits into the wire
CAN-ID, set the FD bit of the flag byte, set `echo_id = 1` for outbound
frames, copy DLC and channel verbatim, pad the payload to 64 bytes. -/
def Frame.to_host_frame (f : Frame) : HostFrame :=
  let can_id := if f.ext then f.can_id ||| GSUSB_EXT_FLAG else f.can_id
  let can_id := if f.rtr then can_id ||| GSUSB_RTR_FLAG else can_id
  let can_id := if f.err then can_id ||| GSUSB_ERR_FLAG else can_id
  { echo_id := 1
    flags := if f.fd then GS_CAN_FLAG_FD else 0
    reserved := 0
    can_id := can_id
    can_dlc := f.can_dlc
    channel := f.channel
    data := f.data_as_array }

/-- `Frame::from_host_frame`: extract the three flag bits from the wire
CAN-ID, mask them off with `0x1FFF_FFFF`, detect loopback by comparing the
echo identifier with the sentinel, extract FD/BRS/ESI from the flag byte,
copy the 64-byte buffer verbatim, leave the timestamp unset. -/
def Frame.from_host_frame (hf : HostFrame) : Frame :=
  let ext := decide (hf.can_id &&& GSUSB_EXT_FLAG > 0)
  let rtr := decide (hf.can_id &&& GSUSB_RTR_FLAG > 0)
  let err := decide (hf.can_id &&& GSUSB_ERR_FLAG > 0)
  let can_id := hf.can_id &&& 0x1FFFFFFF
  let loopback := hf.echo_id != GSUSB_RX_ECHO_ID
  let fd := decide (hf.flags &&& GS_CAN_FLAG_FD > 0)
  let brs := decide (hf.flags &&& GS_CAN_FLAG_BRS > 0)
  let esi := decide (hf.flags &&& GS_CAN_FLAG_ESI > 0)
  { can_id := can_id
    can_dlc := hf.can_dlc
    data := hf.data
    channel := hf.channel
    ext := ext
    loopback := loopback
    rtr := rtr
    fd := fd
    brs := brs
    esi := esi
    err := err
    timestamp := none }

/-- `Frame::data_len`: the DLC-to-byte-length table.  The Rust source
`panic!`s on a DLC of 16..=255 ("invalid DLC value"); the panic is modelled
as `none`. -/
def Frame.data_len (f : Frame) : Option Nat :=
  if f.can_dlc ≤ 8 then some f.can_dlc
  else
    match f.can_dlc with
    | 9 => some 12
    | 10 => some 16
    | 11 => some 20
    | 12 => some 24
    | 13 => some 32
    | 14 => some 48
    | 15 => some 64
    | _ => none

/-- `Frame::default`: all fields zero / false / empty, 64 zero payload bytes. -/
def Frame.default : Frame :=
  { can_id := 0
    can_dlc := 0
    data := List.replicate 64 0
    channel := 0
    ext := false
    fd := false
    loopback := false
    rtr := false
    brs := false
    esi := false
    err := false
    timestamp := none }

/-!
Bit-timing search (`calculate_bit_timing`).

The Rust source computes with `f32`.  The model below uses exact integer
arithmetic; the correspondence is:

* `tmp = clk as f32 / bitrate as f32` and `btq = tmp / brp as f32` denote the
  exact rational `clk / (bitrate * brp)`: here `d := bitrate * brp` is the
  denominator and `clk` the numerator.
* `btq.round() as u32` rounds half away from zero (for the nonnegative
  values arising here, half up) and then saturates the cast to `u32`:
  `min ((2 * clk + d) / (2 * d)) (2 ^ 32 - 1)`, since
  `(2n + d) / (2d)` (integer division) is exactly the floor of `n/d + 1/2`.
* `err = ((btq / btq_rounded - 1.0) * 10000.0).round() / 10000.0` and the
  rejection test `err.abs() > tolerance` (tolerances `0.0`, `0.1/100.0`,
  `0.5/100.0`): writing `dd := d * btq_rounded`, the magnitude of the
  rounded value, scaled by `10^4`, is
  `errScaled = (20000 * natDist clk dd + dd) / (2 * dd)`, and
  `err.abs() > tolerance` holds exactly when `errScaled` exceeds the
  tolerance scaled by `10^4`, i.e. `0`, `10` or `50`.

On the `f32` side every quantity involved is either exactly representable
or far from the relevant rounding boundary for the concrete inputs proved
below, so the branch decisions of the source and of this exact model agree.
The only input where they structurally differ is `bitrate = 0` (the source
produces `f32` infinity, the model a zero denominator); both still return
`Err(InvalidBitrate)` there, but theorems about this function carry a
`0 < bitrate` hypothesis.
-/

/-- The `u32` subtraction `a - b` of the source, which wraps modulo `2 ^ 32`
(release-profile Rust semantics).  Callers pass `a ≤ 2 ^ 32 - 1`. -/
def wrapSub32 (a b : Nat) : Nat := (a + 2 ^ 32 - b) % 2 ^ 32

/-- `btq.round() as u32` for `btq = clk / d` with denominator `d`: round half
away from zero (half up, the value being nonnegative), saturating at
`u32::MAX`.  For `d = 0` the source value is `f32` infinity and the saturating
cast yields `u32::MAX`; the model's `x / 0 = 0` is only reachable with
`bitrate = 0` (see the fidelity note above). -/
def btqRound (clk d : Nat) : Nat := min ((2 * clk + d) / (2 * d)) (2 ^ 32 - 1)

/-- The magnitude of the rounded relative error, scaled by `10 ^ 4`:
`|((clk/dd - 1) * 10000).round()|` for `dd = d * btq_rounded`
(round half away from zero; `Nat.dist` supplies the magnitude of
`clk - dd`). -/
def errScaled (clk dd : Nat) : Nat := (20000 * Nat.dist clk dd + dd) / (2 * dd)

/-- Inner `seg1` loop of `calculate_bit_timing`: for the given prescaler and
rounded quanta count, scan `seg1` over the supplied list (the source uses
`3..18`), computing `seg2 = btq_rounded - seg1 - 1` with wrapping `u32`
subtraction and accepting the first `seg2` in `[2, 8]`.  The returned `Bool`
records whether any executed subtraction underflowed
(`btq_rounded < seg1 + 1`). -/
def segSearch (brp btq_rounded : Nat) : List Nat → Option BitTiming × Bool
  | [] => (none, false)
  | seg1 :: rest =>
    let wraps := decide (btq_rounded < seg1 + 1)
    let seg2 := wrapSub32 btq_rounded (seg1 + 1)
    if seg2 < 2 ∨ seg2 > 8 then
      let r := segSearch brp btq_rounded rest
      (r.1, wraps || r.2)
    else
      (some { brp := brp, prop_seg := 0, phase_seg1 := seg1, phase_seg2 := seg2, sjw := 1 }, wraps)

/-- Middle `brp` loop of `calculate_bit_timing`: for each prescaler in the
supplied list (the source uses `1..=32`), round the quanta count; if the
rounded count lies in `[4, 32]` and the relative error exceeds the current
tolerance (`tolScaled`, scaled by `10 ^ 4`), skip this prescaler; otherwise
run the `seg1` scan and return its first hit.  The `Bool` accumulates the
underflow flag of every executed `seg1` scan. -/
def brpSearch (clk bitrate tolScaled : Nat) : List Nat → Option BitTiming × Bool
  | [] => (none, false)
  | brp :: rest =>
    let d := bitrate * brp
    let btq_rounded := btqRound clk d
    if (4 ≤ btq_rounded ∧ btq_rounded ≤ 32) ∧ errScaled clk (d * btq_rounded) > tolScaled then
      brpSearch clk bitrate tolScaled rest
    else
      match segSearch brp btq_rounded (List.range' 3 15) with
      | (some bt, u) => (some bt, u)
      | (none, u) =>
        let r := brpSearch clk bitrate tolScaled rest
        (r.1, u || r.2)

/-- Outer tolerance loop of `calculate_bit_timing`: tolerances `0.0`,
`0.1/100.0`, `0.5/100.0`, scaled by `10 ^ 4` to `0`, `10`, `50`. -/
def tolSearch (clk bitrate : Nat) : List Nat → Option BitTiming × Bool
  | [] => (none, false)
  | tolScaled :: rest =>
    match brpSearch clk bitrate tolScaled (List.range' 1 32) with
    | (some bt, u) => (some bt, u)
    | (none, u) =>
      let r := tolSearch clk bitrate rest
      (r.1, u || r.2)

/-- `calculate_bit_timing`, instrumented: the first component is the function
result, the second records whether any executed `seg2` subtraction
underflowed (wrapped) during the search. -/
def calculate_bit_timing_instr (clk bitrate : Nat) : Except Error BitTiming × Bool :=
  match tolSearch clk bitrate [0, 10, 50] with
  | (some bt, u) => (.ok bt, u)
  | (none, u) => (.error (.InvalidBitrate bitrate), u)

/-- `calculate_bit_timing`: try tolerances `{0, 0.1%, 0.5%}`; for each, scan
prescalers `1..=32` and `seg1` values `3..18`, returning the first register
set whose `seg2` lands in `[2, 8]`; otherwise `Err(InvalidBitrate)`. -/
def calculate_bit_timing (clk bitrate : Nat) : Except Error BitTiming :=
  (calculate_bit_timing_instr clk bitrate).1

/-- `effective_bitrate`: `clk / brp / (prop_seg + phase_seg1 + phase_seg2 + 1)`
with `u32` (truncating) division. -/
def effective_bitrate (clk : Nat) (bt : BitTiming) : Nat :=
  clk / bt.brp / (bt.prop_seg + bt.phase_seg1 + bt.phase_seg2 + 1)

/-- Whether `calculate_bit_timing` succeeds with a register set whose
reconstructed effective bitrate differs from the requested bitrate by less
than 0.5 percent (`200 * |effective - requested| < requested`). -/
def bitrateWithinHalfPercent (clk bitrate : Nat) : Bool :=
  match calculate_bit_timing clk bitrate with
  | .ok bt => decide (200 * Nat.dist (effective_bitrate clk bt) bitrate < bitrate)
  | .error _ => false

deriving instance DecidableEq for Except

/-- Per-channel configuration (`struct Channel`). -/
structure Channel where
  bitrate : Nat
  enabled : Bool
  loopback : Bool
  monitor : Bool
  fd : Bool
  data_bitrate : Nat
deriving DecidableEq, Repr

/-- The `Interface` state: device capability snapshot captured at
construction, the shared run flag, and the per-channel configurations.  The
`Device` handle itself is external; the commands pushed to it are returned
explicitly by the operations that issue them. -/
structure Interface where
  running : Bool
  can_clock : Nat
  channel_count : Nat
  sw_version : Nat
  hw_version : Nat
  features : Nat
  channels : List Channel
deriving DecidableEq, Repr

/-- `self.channels[channel].f = ...`: update one entry of the channel vector. -/
def updateChannel (chs : List Channel) (i : Nat) (f : Channel → Channel) : List Channel :=
  match chs, i with
  | [], _ => []
  | ch :: rest, 0 => f ch :: rest
  | ch :: rest, n + 1 => ch :: updateChannel rest n f

/-- `Interface::new`, after a device has been found: capture the device
configuration (`icount`, software/hardware version) and the bit-timing
constants (CAN clock, feature bitmask), build `icount + 1` default channel
configurations (the device-reported channel count is zero-indexed), run flag
false. -/
def Interface.new (icount sw_version hw_version fclk_can feature : Nat) : Interface :=
  { running := false
    can_clock := fclk_can
    channel_count := icount
    sw_version := sw_version
    hw_version := hw_version
    features := feature
    channels := List.replicate (icount + 1)
      { bitrate := 0, enabled := true, loopback := false, monitor := false, fd := false,
        data_bitrate := 0 } }

/-- `Interface::supports_fd`: `(features & GS_CAN_FEATURE_FD) > 0`. -/
def Interface.supports_fd (s : Interface) : Bool :=
  decide (s.features &&& GS_CAN_FEATURE_FD > 0)

/-- `Interface::set_bitrate`: channel-bounds check, delegate to
`calculate_bit_timing` (propagating its failure), push the timing to the
device (infallible in the model; the source `.expect`s), persist the
requested bitrate.  Note: no run-state check and no capability check. -/
def Interface.set_bitrate (s : Interface) (channel bitrate : Nat) : Except Error Interface :=
  if channel > s.channel_count then .error .InvalidChannel
  else
    match calculate_bit_timing s.can_clock bitrate with
    | .error e => .error e
    | .ok _bt =>
      .ok { s with channels := updateChannel s.channels channel fun ch => { ch with bitrate := bitrate } }

/-- `Interface::set_data_bitrate`: FD-capability check first, then
channel-bounds check, then delegate to `calculate_bit_timing`, push the data
timing, persist the requested data bitrate.  Note: no run-state check. -/
def Interface.set_data_bitrate (s : Interface) (channel bitrate : Nat) : Except Error Interface :=
  if !s.supports_fd then .error (.UnsupportedFeature "FD")
  else if channel > s.channel_count then .error .InvalidChannel
  else
    match calculate_bit_timing s.can_clock bitrate with
    | .error e => .error e
    | .ok _bt =>
      .ok { s with channels := updateChannel s.channels channel fun ch => { ch with data_bitrate := bitrate } }

/-- `Interface::set_bit_timing` (custom timing): builds the register record
with `prop_seg = 0` and pushes it to the device for the requested channel.
It performs no validation at all — no channel-bounds, capability or run-state
check — and never touches the channel configurations.  The returned value
records (channel and timing pushed to the device, unchanged interface). -/
def Interface.set_bit_timing (s : Interface) (channel brp phase_seg1 phase_seg2 sjw : Nat) :
    Except Error ((Nat × BitTiming) × Interface) :=
  .ok ((channel,
        { brp := brp, prop_seg := 0, phase_seg1 := phase_seg1, phase_seg2 := phase_seg2, sjw := sjw }),
       s)

/-- `Interface::set_monitor`: listen-only capability check first, then
channel-bounds check, then run-state check, then persist. -/
def Interface.set_monitor (s : Interface) (channel : Nat) (enabled : Bool) : Except Error Interface :=
  if s.features &&& GS_CAN_FEATURE_LISTEN_ONLY = 0 then .error (.UnsupportedFeature "Monitor")
  else if channel > s.channel_count then .error .InvalidChannel
  else if s.running then .error .Running
  else .ok { s with channels := updateChannel s.channels channel fun ch => { ch with monitor := enabled } }

/-- `Interface::set_enabled`: channel-bounds check, then run-state check,
then persist.  (No capability check.) -/
def Interface.set_enabled (s : Interface) (channel : Nat) (enabled : Bool) : Except Error Interface :=
  if channel > s.channel_count then .error .InvalidChannel
  else if s.running then .error .Running
  else .ok { s with channels := updateChannel s.channels channel fun ch => { ch with enabled := enabled } }

/-- `Interface::set_loopback`: loopback capability check first, then
channel-bounds check, then run-state check, then persist. -/
def Interface.set_loopback (s : Interface) (channel : Nat) (enabled : Bool) : Except Error Interface :=
  if s.features &&& GS_CAN_FEATURE_LOOP_BACK = 0 then .error (.UnsupportedFeature "Loopback")
  else if channel > s.channel_count then .error .InvalidChannel
  else if s.running then .error .Running
  else .ok { s with channels := updateChannel s.channels channel fun ch => { ch with loopback := enabled } }

/-- `Interface::set_fd`: FD capability check first, then channel-bounds
check, then run-state check, then persist. -/
def Interface.set_fd (s : Interface) (channel : Nat) (enabled : Bool) : Except Error Interface :=
  if !s.supports_fd then .error (.UnsupportedFeature "FD")
  else if channel > s.channel_count then .error .InvalidChannel
  else if s.running then .error .Running
  else .ok { s with channels := updateChannel s.channels channel fun ch => { ch with fd := enabled } }

/-- `Interface::send`: run-state check (`NotRunning` when the run flag is
false), then encode and push one wire frame to the device.  The pushed
`HostFrame` is returned. -/
def Interface.send (s : Interface) (f : Frame) : Except Error HostFrame :=
  if !s.running then .error .NotRunning else .ok f.to_host_frame

/-- `Interface::channels()`: the logical channel count,
`channel_count + 1` (the device-reported count is zero-indexed). -/
def Interface.num_channels (s : Interface) : Nat := s.channel_count + 1

/-- The mode-flag validation performed by `Interface::start` for one channel:
each of the monitor / loopback / FD settings is re-validated against the
feature bitmask (in that order, failing `UnsupportedFeature` with the
feature's name) and, when requested, OR-ed into the mode-flag word. -/
def channelFlags (features : Nat) (ch : Channel) : Except Error Nat :=
  if ch.monitor && (features &&& GS_CAN_FEATURE_LISTEN_ONLY == 0) then
    .error (.UnsupportedFeature "Monitor")
  else if ch.loopback && (features &&& GS_CAN_FEATURE_LOOP_BACK == 0) then
    .error (.UnsupportedFeature "Loopback")
  else if ch.fd && (features &&& GS_CAN_FEATURE_FD == 0) then
    .error (.UnsupportedFeature "FD")
  else
    .ok ((if ch.monitor then GS_CAN_MODE_LISTEN_ONLY else 0) |||
         ((if ch.loopback then GS_CAN_MODE_LOOP_BACK else 0) |||
          (if ch.fd then GS_CAN_MODE_FD else 0)))

/-- The per-channel loop of `Interface::start`, beginning at channel index
`i`: validate and build each channel's mode-flag word; on failure stop
immediately (commands already issued are not rolled back); for each enabled
channel issue a `CanModeStart` mode command.  Returns the first error (if
any) and the list of `(channel, Mode)` commands issued to the device. -/
def startChannels (features : Nat) (i : Nat) : List Channel → Option Error × List (Nat × Mode)
  | [] => (none, [])
  | ch :: rest =>
    match channelFlags features ch with
    | .error e => (some e, [])
    | .ok flags =>
      let here := if ch.enabled then [(i, ({ mode := CanModeStart, flags := flags } : Mode))] else []
      let r := startChannels features (i + 1) rest
      (r.1, here ++ r.2)

/-- `Interface::start`: run the per-channel loop from index 0; if it
completes without an `UnsupportedFeature` failure, set the run flag true (the
receive-delivery thread and `start_transfers` are outside this model).
Returns the call's result and the mode commands issued to the device. -/
def Interface.start (s : Interface) : Except Error Interface × List (Nat × Mode) :=
  match startChannels s.features 0 s.channels with
  | (some e, cmds) => (.error e, cmds)
  | (none, cmds) => (.ok { s with running := true }, cmds)

/-- `Interface::stop`: issue a `CanModeReset` mode command for every enabled
channel, halt transfers, and clear the run flag.  Always succeeds. -/
def Interface.stop (s : Interface) : Interface × List (Nat × Mode) :=
  ({ s with running := false },
   (List.range s.channels.length).zip s.channels |>.filterMap fun ic =>
     if ic.2.enabled then some (ic.1, { mode := CanModeReset, flags := 0 }) else none)

/-!
Specification-side helpers used to state the theorems below.  These are not
translations of source code; they describe the behaviour the theorems
attribute to the code definitions above.
-/

/-- Specification helper: the channel's requested modes are all supported by
the feature bitmask (monitor needs listen-only, loopback needs loopback, FD
needs FD). -/
def supportedCh (features : Nat) (ch : Channel) : Bool :=
  (!ch.monitor || (features &&& GS_CAN_FEATURE_LISTEN_ONLY != 0)) &&
  ((!ch.loopback || (features &&& GS_CAN_FEATURE_LOOP_BACK != 0)) &&
   (!ch.fd || (features &&& GS_CAN_FEATURE_FD != 0)))

/-- Specification helper: the mode-flag word of a channel whose requests are
all supported. -/
def flagsWord (ch : Channel) : Nat :=
  (if ch.monitor then GS_CAN_MODE_LISTEN_ONLY else 0) |||
  ((if ch.loopback then GS_CAN_MODE_LOOP_BACK else 0) |||
   (if ch.fd then GS_CAN_MODE_FD else 0))

/-- Specification helper: the name reported by the first failing capability
check of a channel (monitor, then loopback, then FD). -/
def badName (features : Nat) (ch : Channel) : String :=
  if ch.monitor && (features &&& GS_CAN_FEATURE_LISTEN_ONLY == 0) then "Monitor"
  else if ch.loopback && (features &&& GS_CAN_FEATURE_LOOP_BACK == 0) then "Loopback"
  else "FD"

/-- Specification helper: the mode commands `start` issues for a channel list
beginning at index `i` — one `CanModeStart` command per enabled channel, with
that channel's mode-flag word, and nothing for disabled channels. -/
def expectedCmds (i : Nat) : List Channel → List (Nat × Mode)
  | [] => []
  | ch :: rest =>
    (if ch.enabled then [(i, ({ mode := CanModeStart, flags := flagsWord ch } : Mode))] else []) ++
    expectedCmds (i + 1) rest

/-- The default per-channel configuration installed by `Interface::new`. -/
def defaultChannel : Channel :=
  { bitrate := 0, enabled := true, loopback := false, monitor := false, fd := false,
    data_bitrate := 0 }

/-- Concrete interface over a simulated single-channel device: 24 MHz CAN
clock, all three capability bits (listen-only, loopback, FD) set. -/
def ifaceAll : Interface := Interface.new 0 10 20 24000000 259

/-- `ifaceAll` with the run flag raised. -/
def ifaceAllRun : Interface := { ifaceAll with running := true }

/-- Concrete interface over a simulated single-channel device with an empty
feature bitmask (no listen-only, no loopback, no FD). -/
def ifaceNoFeat : Interface := Interface.new 0 10 20 24000000 0

/-- Concrete interface over a simulated two-channel device (device-reported
zero-indexed count 1) with an empty feature bitmask. -/
def ifaceTwoCh : Interface := Interface.new 1 10 20 24000000 0

/-- Concrete frame used as a round-trip witness: 29-bit-clean ID, 3 payload
bytes. -/
def sampleFrame : Frame :=
  { Frame.default with can_id := 0x123, can_dlc := 3, channel := 1, data := [17, 34, 51],
                       ext := true, fd := true, rtr := false, err := true }

/-- The per-channel `start` loop on all-default channels: every channel is
enabled with no mode flags requested, so no capability check fires and one
`CanModeStart` command with flag word 0 is issued per channel. -/
theorem startChannels_replicate_default (feat n i : Nat) :
    startChannels feat i (List.replicate n defaultChannel) =
      (none, (List.range' i n).map fun j => (j, ({ mode := CanModeStart, flags := 0 } : Mode))) := by
  have h0 : ((0 ||| (0 ||| 0) : Nat)) = 0 := by decide
  have hcf : channelFlags feat defaultChannel = .ok 0 := by
    simp [channelFlags, defaultChannel, h0]
  have henb : defaultChannel.enabled = true := rfl
  induction n generalizing i with
  | zero => simp [startChannels]
  | succ n ih =>
    simp [List.replicate_succ, startChannels, hcf, henb, ih, List.range'_succ]

/-- C10: `Interface::new` installs exactly `channel_count + 1` channel
configurations, each enabled with zero bitrates and no mode flags, and the
run flag false; a `start` with no further configuration therefore succeeds,
issuing a `CanModeStart` command for every channel, and `channels()` returns
`channel_count + 1`. -/
theorem interface_new_defaults (icount sw hw clk feat : Nat) :
    (Interface.new icount sw hw clk feat).channels = List.replicate (icount + 1) defaultChannel ∧
    (Interface.new icount sw hw clk feat).running = false ∧
    (Interface.new icount sw hw clk feat).num_channels = icount + 1 ∧
    (Interface.new icount sw hw clk feat).start =
      (.ok { Interface.new icount sw hw clk feat with running := true },
       (List.range (icount + 1)).map fun i => (i, ({ mode := CanModeStart, flags := 0 } : Mode))) := by
  refine ⟨rfl, rfl, rfl, ?_⟩
  have h : (Interface.new icount sw hw clk feat).channels = List.replicate (icount + 1) defaultChannel := rfl
  simp [Interface.start, h, startChannels_replicate_default, List.range_eq_range']

/-- C8: a decoded frame is marked loopback exactly when its echo identifier
differs from the reserved "not an echo" sentinel. -/
theorem loopback_iff_echo_not_sentinel (hf : HostFrame) :
    (Frame.from_host_frame hf).loopback = true ↔ hf.echo_id ≠ GSUSB_RX_ECHO_ID := by
  simp [Frame.from_host_frame]

/-- C5: `Frame::data_len` implements the fixed DLC-to-byte-length table —
DLC 0..8 map to themselves, 9..15 to the CAN-FD lengths 12/16/20/24/32/48/64,
and every DLC greater than 15 fails fast (the source panics; modelled as
`none`). -/
theorem data_len_table (f : Frame) :
    (f.can_dlc ≤ 8 → f.data_len = some f.can_dlc) ∧
    (f.can_dlc = 9 → f.data_len = some 12) ∧
    (f.can_dlc = 10 → f.data_len = some 16) ∧
    (f.can_dlc = 11 → f.data_len = some 20) ∧
    (f.can_dlc = 12 → f.data_len = some 24) ∧
    (f.can_dlc = 13 → f.data_len = some 32) ∧
    (f.can_dlc = 14 → f.data_len = some 48) ∧
    (f.can_dlc = 15 → f.data_len = some 64) ∧
    (15 < f.can_dlc → f.data_len = none) := by
  refine ⟨?_, ?_, ?_, ?_, ?_, ?_, ?_, ?_, ?_⟩ <;> intro h
  · simp [Frame.data_len, h]
  · simp [Frame.data_len, h]
  · simp [Frame.data_len, h]
  · simp [Frame.data_len, h]
  · simp [Frame.data_len, h]
  · simp [Frame.data_len, h]
  · simp [Frame.data_len, h]
  · simp [Frame.data_len, h]
  · unfold Frame.data_len
    obtain ⟨k, hk⟩ : ∃ k, f.can_dlc = k + 16 := ⟨f.can_dlc - 16, by omega⟩
    rw [hk, if_neg (by omega)]
    split <;> first | rfl | omega

/-- Witness for `data_len_table` at DLC 5, 12 and 16. -/
theorem data_len_table_witness :
    ({ Frame.default with can_dlc := 5 } : Frame).data_len = some 5 ∧
    ({ Frame.default with can_dlc := 12 } : Frame).data_len = some 24 ∧
    ({ Frame.default with can_dlc := 16 } : Frame).data_len = none :=
  ⟨(data_len_table _).1 (by decide),
   (data_len_table _).2.2.2.2.1 (by decide),
   (data_len_table _).2.2.2.2.2.2.2.2 (by decide)⟩

/-- C6: against a 24 MHz core clock, each representative bitrate — 1 Mbit/s,
500 kbit/s, 250 kbit/s, 125 kbit/s and the CAN-FD rate 2 Mbit/s — yields a
timing solution whose reconstructed effective bitrate is within 0.5 percent
of the request (here the error is exactly zero). -/
theorem bit_timing_representative_rates :
    (bitrateWithinHalfPercent 24000000 1000000 = true ∧
     calculate_bit_timing 24000000 1000000 =
       .ok { brp := 1, prop_seg := 0, phase_seg1 := 15, phase_seg2 := 8, sjw := 1 }) ∧
    (bitrateWithinHalfPercent 24000000 500000 = true ∧
     calculate_bit_timing 24000000 500000 =
       .ok { brp := 2, prop_seg := 0, phase_seg1 := 15, phase_seg2 := 8, sjw := 1 }) ∧
    (bitrateWithinHalfPercent 24000000 250000 = true ∧
     calculate_bit_timing 24000000 250000 =
       .ok { brp := 4, prop_seg := 0, phase_seg1 := 15, phase_seg2 := 8, sjw := 1 }) ∧
    (bitrateWithinHalfPercent 24000000 125000 = true ∧
     calculate_bit_timing 24000000 125000 =
       .ok { brp := 8, prop_seg := 0, phase_seg1 := 15, phase_seg2 := 8, sjw := 1 }) ∧
    (bitrateWithinHalfPercent 24000000 2000000 = true ∧
     calculate_bit_timing 24000000 2000000 =
       .ok { brp := 1, prop_seg := 0, phase_seg1 := 3, phase_seg2 := 8, sjw := 1 }) := by
  decide

/-- C9 (amended): for every clock and positive bitrate the search returns
`Ok` or `Err(InvalidBitrate)`; the wrapping `u32` subtraction
`btq_rounded - seg1 - 1` wraps exactly when `btq_rounded < seg1 + 1`, and a
wrapped value always exceeds the maximum `seg2` bound 8, so it is rejected by
the `[2, 8]` range check and never reaches a returned timing. -/
theorem calc_bit_timing_totality_amended :
    (∀ clk bitrate : Nat, 0 < bitrate →
       (∃ bt, calculate_bit_timing clk bitrate = .ok bt) ∨
       calculate_bit_timing clk bitrate = .error (.InvalidBitrate bitrate)) ∧
    (∀ btqr seg1 : Nat, 3 ≤ seg1 → seg1 ≤ 17 → btqr < seg1 + 1 →
       8 < wrapSub32 btqr (seg1 + 1)) ∧
    (∀ btqr seg1 : Nat, seg1 + 1 ≤ btqr → btqr ≤ 2 ^ 32 - 1 →
       wrapSub32 btqr (seg1 + 1) = btqr - (seg1 + 1)) := by
  refine ⟨?_, ?_, ?_⟩
  · intro clk bitrate _
    unfold calculate_bit_timing calculate_bit_timing_instr
    rcases h : tolSearch clk bitrate [0, 10, 50] with ⟨o, u⟩
    cases o with
    | some bt => exact Or.inl ⟨bt, by simp [h]⟩
    | none => exact Or.inr (by simp [h])
  · intro btqr seg1 h3 h17 hlt
    unfold wrapSub32
    have h32 : (2 : Nat) ^ 32 = 4294967296 := by norm_num
    rw [h32]
    omega
  · intro btqr seg1 hle hub
    unfold wrapSub32
    have h32 : (2 : Nat) ^ 32 = 4294967296 := by norm_num
    rw [h32]
    omega

/-- Witness for `calc_bit_timing_totality_amended`: totality at
(24 MHz, 500 kbit/s), rejection of the wrapped value for
`btq_rounded = 1, seg1 = 3`, and the unwrapped subtraction at
`btq_rounded = 24, seg1 = 15`. -/
theorem calc_bit_timing_totality_amended_witness :
    ((∃ bt, calculate_bit_timing 24000000 500000 = .ok bt) ∨
       calculate_bit_timing 24000000 500000 = .error (.InvalidBitrate 500000)) ∧
    8 < wrapSub32 1 4 ∧
    wrapSub32 24 16 = 8 :=
  ⟨calc_bit_timing_totality_amended.1 24000000 500000 (by decide),
   calc_bit_timing_totality_amended.2.1 1 3 (by decide) (by decide) (by decide),
   calc_bit_timing_totality_amended.2.2 24 15 (by decide) (by decide)⟩

/-- Counterexample to C9 as stated: at clock 24 MHz and requested bitrate
24 Mbit/s the very search executes `seg2 = btq_rounded - seg1 - 1` with
`btq_rounded = 1 < seg1 + 1` (e.g. at prescaler 1, `seg1 = 3`), so the
unsigned subtraction does underflow; the instrumented search records this.
The call still terminates with `Err(InvalidBitrate)` because every wrapped
value is rejected. -/
theorem seg2_underflow_counterexample :
    (calculate_bit_timing_instr 24000000 24000000).2 = true ∧
    calculate_bit_timing 24000000 24000000 = .error (.InvalidBitrate 24000000) := by
  decide

/-- A 29-bit-clean value OR-ed with high-bit flags: AND-ing with a single
high bit `2 ^ j` (`j ≥ 29`) sees only the flag part. -/
theorem or_and_high (a c : Nat) (ha : a < 2 ^ 29) (j : Nat) (hj : 29 ≤ j) :
    (a ||| c) &&& 2 ^ j = c &&& 2 ^ j := by
  have hb : a.testBit j = false :=
    Nat.testBit_lt_two_pow (lt_of_lt_of_le ha (Nat.pow_le_pow_right (by norm_num) hj))
  rw [Nat.and_two_pow, Nat.and_two_pow, Nat.testBit_or, hb, Bool.false_or]

/-- A 29-bit-clean value OR-ed with bits that all lie at position 29 or
above: the low 29-bit mask recovers the value exactly. -/
theorem or_and_mask (a c : Nat) (ha : a < 2 ^ 29) (hc : ∀ i, i < 29 → c.testBit i = false) :
    (a ||| c) &&& (2 ^ 29 - 1) = a := by
  apply Nat.eq_of_testBit_eq
  intro i
  rw [Nat.testBit_and, Nat.testBit_or, Nat.testBit_two_pow_sub_one]
  by_cases h : i < 29
  · simp [hc i h, h]
  · have hb : a.testBit i = false :=
      Nat.testBit_lt_two_pow (lt_of_lt_of_le ha (Nat.pow_le_pow_right (by norm_num) (le_of_not_lt h)))
    simp [h, hb]

/-- Decoding the composite wire CAN-ID `a ||| c` (29-bit-clean `a`, flag
bits `c` at positions 29..31): the mask recovers `a` and each flag-bit test
sees only `c`. -/
theorem decode_enc (a c : Nat) (ha : a < 2 ^ 29) (hc : ∀ i, i < 29 → c.testBit i = false) :
    ((a ||| c) &&& 0x1FFFFFFF = a) ∧
    ((a ||| c) &&& 0x80000000 = c &&& 0x80000000) ∧
    ((a ||| c) &&& 0x40000000 = c &&& 0x40000000) ∧
    ((a ||| c) &&& 0x20000000 = c &&& 0x20000000) := by
  have h1 : (0x1FFFFFFF : Nat) = 2 ^ 29 - 1 := by norm_num
  have h2 : (0x80000000 : Nat) = 2 ^ 31 := by norm_num
  have h3 : (0x40000000 : Nat) = 2 ^ 30 := by norm_num
  have h4 : (0x20000000 : Nat) = 2 ^ 29 := by norm_num
  exact ⟨h1 ▸ or_and_mask a c ha hc,
         h2 ▸ or_and_high a c ha 31 (by norm_num),
         h3 ▸ or_and_high a c ha 30 (by norm_num),
         h4 ▸ or_and_high a c ha 29 (by norm_num)⟩


/-- Decoding an encoded wire CAN-ID recovers the 29-bit ID and the three
flags, for every flag combination, provided the ID is 29-bit-clean. -/
theorem enc_roundtrip_bits (a : Nat) (ha : a < 2 ^ 29) (e r er : Bool) :
    ((if er then (if r then (if e then a ||| GSUSB_EXT_FLAG else a) ||| GSUSB_RTR_FLAG
                  else (if e then a ||| GSUSB_EXT_FLAG else a)) ||| GSUSB_ERR_FLAG
      else (if r then (if e then a ||| GSUSB_EXT_FLAG else a) ||| GSUSB_RTR_FLAG
            else (if e then a ||| GSUSB_EXT_FLAG else a))) &&& 0x1FFFFFFF = a) ∧
    (decide ((if er then (if r then (if e then a ||| GSUSB_EXT_FLAG else a) ||| GSUSB_RTR_FLAG
                  else (if e then a ||| GSUSB_EXT_FLAG else a)) ||| GSUSB_ERR_FLAG
      else (if r then (if e then a ||| GSUSB_EXT_FLAG else a) ||| GSUSB_RTR_FLAG
            else (if e then a ||| GSUSB_EXT_FLAG else a))) &&& GSUSB_EXT_FLAG > 0) = e) ∧
    (decide ((if er then (if r then (if e then a ||| GSUSB_EXT_FLAG else a) ||| GSUSB_RTR_FLAG
                  else (if e then a ||| GSUSB_EXT_FLAG else a)) ||| GSUSB_ERR_FLAG
      else (if r then (if e then a ||| GSUSB_EXT_FLAG else a) ||| GSUSB_RTR_FLAG
            else (if e then a ||| GSUSB_EXT_FLAG else a))) &&& GSUSB_RTR_FLAG > 0) = r) ∧
    (decide ((if er then (if r then (if e then a ||| GSUSB_EXT_FLAG else a) ||| GSUSB_RTR_FLAG
                  else (if e then a ||| GSUSB_EXT_FLAG else a)) ||| GSUSB_ERR_FLAG
      else (if r then (if e then a ||| GSUSB_EXT_FLAG else a) ||| GSUSB_RTR_FLAG
            else (if e then a ||| GSUSB_EXT_FLAG else a))) &&& GSUSB_ERR_FLAG > 0) = er) := by
  cases e <;> cases r <;> cases er <;>
    simp only [if_true, if_false, Bool.false_eq_true, Bool.true_eq_false, ite_true, ite_false,
      GSUSB_EXT_FLAG, GSUSB_RTR_FLAG, GSUSB_ERR_FLAG, Nat.lor_assoc]
  case false.false.false =>
    have h := decode_enc a 0 ha (by decide)
    rw [Nat.or_zero a] at h
    exact ⟨h.1, by rw [h.2.1]; decide, by rw [h.2.2.1]; decide, by rw [h.2.2.2]; decide⟩
  case false.false.true =>
    have h := decode_enc a 0x20000000 ha (by decide)
    exact ⟨h.1, by rw [h.2.1]; decide, by rw [h.2.2.1]; decide, by rw [h.2.2.2]; decide⟩
  case false.true.false =>
    have h := decode_enc a 0x40000000 ha (by decide)
    exact ⟨h.1, by rw [h.2.1]; decide, by rw [h.2.2.1]; decide, by rw [h.2.2.2]; decide⟩
  case false.true.true =>
    have h := decode_enc a (0x40000000 ||| 0x20000000) ha (by decide)
    exact ⟨h.1, by rw [h.2.1]; decide, by rw [h.2.2.1]; decide, by rw [h.2.2.2]; decide⟩
  case true.false.false =>
    have h := decode_enc a 0x80000000 ha (by decide)
    exact ⟨h.1, by rw [h.2.1]; decide, by rw [h.2.2.1]; decide, by rw [h.2.2.2]; decide⟩
  case true.false.true =>
    have h := decode_enc a (0x80000000 ||| 0x20000000) ha (by decide)
    exact ⟨h.1, by rw [h.2.1]; decide, by rw [h.2.2.1]; decide, by rw [h.2.2.2]; decide⟩
  case true.true.false =>
    have h := decode_enc a (0x80000000 ||| 0x40000000) ha (by decide)
    exact ⟨h.1, by rw [h.2.1]; decide, by rw [h.2.2.1]; decide, by rw [h.2.2.2]; decide⟩
  case true.true.true =>
    have h := decode_enc a (0x80000000 ||| (0x40000000 ||| 0x20000000)) ha (by decide)
    exact ⟨h.1, by rw [h.2.1]; decide, by rw [h.2.2.1]; decide, by rw [h.2.2.2]; decide⟩

/-- The FD flag survives the flag-byte round trip. -/
theorem fd_bit_roundtrip (b : Bool) :
    decide ((if b then GS_CAN_FLAG_FD else 0) &&& GS_CAN_FLAG_FD > 0) = b := by
  cases b <;> decide

/-- C4 (amended): for every frame whose arbitration ID fits in 29 bits,
encoding then decoding preserves `can_id`, `can_dlc`, `channel` and the four
flags `ext`/`rtr`/`err`/`fd`; the decoded payload is the original payload
truncated to 64 bytes and zero-padded to exactly 64 bytes (hence equal to the
original payload exactly when that payload is 64 bytes long); the decoded
timestamp is `None`, i.e. the codec does not preserve the timestamp. -/
theorem frame_roundtrip_amended (f : Frame) (ha : f.can_id < 2 ^ 29) :
    (Frame.from_host_frame f.to_host_frame).can_id = f.can_id ∧
    (Frame.from_host_frame f.to_host_frame).can_dlc = f.can_dlc ∧
    (Frame.from_host_frame f.to_host_frame).channel = f.channel ∧
    (Frame.from_host_frame f.to_host_frame).ext = f.ext ∧
    (Frame.from_host_frame f.to_host_frame).rtr = f.rtr ∧
    (Frame.from_host_frame f.to_host_frame).err = f.err ∧
    (Frame.from_host_frame f.to_host_frame).fd = f.fd ∧
    (Frame.from_host_frame f.to_host_frame).data =
      f.data.take 64 ++ List.replicate (64 - min f.data.length 64) 0 ∧
    (Frame.from_host_frame f.to_host_frame).timestamp = none := by
  obtain ⟨h1, h2, h3, h4⟩ := enc_roundtrip_bits f.can_id ha f.ext f.rtr f.err
  simp only [Frame.from_host_frame, Frame.to_host_frame, Frame.data_as_array]
  exact ⟨h1, trivial, trivial, h2, h3, h4, fd_bit_roundtrip f.fd, trivial, trivial⟩

/-- Counterexample to C4 as stated: a frame with a 1-byte payload does not
round-trip to "exactly the same payload bytes" — the decoder always returns
the full 64-byte buffer, i.e. the payload zero-padded to length 64. -/
theorem frame_roundtrip_counterexample :
    (Frame.from_host_frame ({ Frame.default with can_dlc := 1, data := [1] } : Frame).to_host_frame).data ≠
      ({ Frame.default with can_dlc := 1, data := [1] } : Frame).data := by
  decide

/-- Witness for `frame_roundtrip_amended` at `sampleFrame`
(ID `0x123`, DLC 3, 3 payload bytes, `ext`/`err`/`fd` set). -/
theorem frame_roundtrip_amended_witness :
    (Frame.from_host_frame sampleFrame.to_host_frame).can_id = sampleFrame.can_id ∧
    (Frame.from_host_frame sampleFrame.to_host_frame).ext = sampleFrame.ext ∧
    (Frame.from_host_frame sampleFrame.to_host_frame).rtr = sampleFrame.rtr ∧
    (Frame.from_host_frame sampleFrame.to_host_frame).err = sampleFrame.err ∧
    (Frame.from_host_frame sampleFrame.to_host_frame).fd = sampleFrame.fd ∧
    (Frame.from_host_frame sampleFrame.to_host_frame).timestamp = none :=
  ⟨(frame_roundtrip_amended sampleFrame (by decide)).1,
   (frame_roundtrip_amended sampleFrame (by decide)).2.2.2.1,
   (frame_roundtrip_amended sampleFrame (by decide)).2.2.2.2.1,
   (frame_roundtrip_amended sampleFrame (by decide)).2.2.2.2.2.1,
   (frame_roundtrip_amended sampleFrame (by decide)).2.2.2.2.2.2.1,
   (frame_roundtrip_amended sampleFrame (by decide)).2.2.2.2.2.2.2.2⟩

/-- A channel whose requests are all supported passes the `start` validation
and yields its mode-flag word. -/
theorem channelFlags_ok (feat : Nat) (ch : Channel) (h : supportedCh feat ch = true) :
    channelFlags feat ch = .ok (flagsWord ch) := by
  unfold supportedCh at h
  unfold channelFlags flagsWord
  cases hm : ch.monitor <;> cases hl : ch.loopback <;> cases hf : ch.fd <;>
    simp_all [bne]

/-- A channel with an unsupported request fails the `start` validation with
`UnsupportedFeature` naming the first failing feature. -/
theorem channelFlags_err (feat : Nat) (ch : Channel) (h : supportedCh feat ch = false) :
    channelFlags feat ch = .error (.UnsupportedFeature (badName feat ch)) := by
  unfold supportedCh at h
  unfold channelFlags badName
  cases hm : ch.monitor <;> cases hl : ch.loopback <;> cases hf : ch.fd <;>
    cases hL : (feat &&& GS_CAN_FEATURE_LISTEN_ONLY == 0) <;>
    cases hB : (feat &&& GS_CAN_FEATURE_LOOP_BACK == 0) <;>
    cases hF : (feat &&& GS_CAN_FEATURE_FD == 0) <;>
    simp_all [bne]

/-- If every channel of the list passes validation, the `start` loop issues
exactly the expected commands and reports no error. -/
theorem startChannels_ok (feat : Nat) :
    ∀ (chs : List Channel) (i : Nat), (∀ ch ∈ chs, supportedCh feat ch = true) →
      startChannels feat i chs = (none, expectedCmds i chs) := by
  intro chs
  induction chs with
  | nil => intro i _; rfl
  | cons ch rest ih =>
    intro i h
    have hch := h ch (List.mem_cons_self ch rest)
    have hrest : ∀ c ∈ rest, supportedCh feat c = true :=
      fun c hc => h c (List.mem_cons_of_mem ch hc)
    simp [startChannels, channelFlags_ok feat ch hch, ih (i + 1) hrest, expectedCmds]

/-- If the channels up to the first invalid one pass validation and that one
fails it, the `start` loop stops with `UnsupportedFeature` naming that
channel's first unsupported feature, having issued commands only for the
enabled channels strictly before it — in particular the failing channel is
never placed on-bus. -/
theorem startChannels_err (feat : Nat) (bad : Channel) (hbad : supportedCh feat bad = false) :
    ∀ (pre : List Channel) (i : Nat) (post : List Channel),
      (∀ ch ∈ pre, supportedCh feat ch = true) →
      startChannels feat i (pre ++ bad :: post) =
        (some (.UnsupportedFeature (badName feat bad)), expectedCmds i pre) := by
  intro pre
  induction pre with
  | nil =>
    intro i post _
    simp [startChannels, channelFlags_err feat bad hbad, expectedCmds]
  | cons ch rest ih =>
    intro i post h
    have hch := h ch (List.mem_cons_self ch rest)
    have hrest : ∀ c ∈ rest, supportedCh feat c = true :=
      fun c hc => h c (List.mem_cons_of_mem ch hc)
    simp [startChannels, channelFlags_ok feat ch hch, ih (i + 1) post hrest, expectedCmds]

/-- Every channel list containing an invalid channel splits as a fully valid
prefix, the first invalid channel, and a remainder. -/
theorem exists_first_bad (feat : Nat) :
    ∀ chs : List Channel, (∃ ch ∈ chs, supportedCh feat ch = false) →
      ∃ pre bad post, chs = pre ++ bad :: post ∧
        (∀ ch ∈ pre, supportedCh feat ch = true) ∧ supportedCh feat bad = false := by
  intro chs
  induction chs with
  | nil =>
    intro h
    obtain ⟨c, hc, _⟩ := h
    exact absurd hc (List.not_mem_nil c)
  | cons ch rest ih =>
    intro h
    cases hch : supportedCh feat ch with
    | false =>
      exact ⟨[], ch, rest, rfl, fun c hc => absurd hc (List.not_mem_nil c), hch⟩
    | true =>
      have hrest : ∃ c ∈ rest, supportedCh feat c = false := by
        obtain ⟨c, hc, hbadc⟩ := h
        rcases List.mem_cons.mp hc with rfl | hmem
        · rw [hch] at hbadc; exact absurd hbadc (by simp)
        · exact ⟨c, hmem, hbadc⟩
      obtain ⟨pre, bad, post, hsplit, hpre, hbad⟩ := ih hrest
      refine ⟨ch :: pre, bad, post, by rw [hsplit]; rfl, ?_, hbad⟩
      intro c hc
      rcases List.mem_cons.mp hc with rfl | hm
      · exact hch
      · exact hpre c hm

/-- C7: `start` re-validates every channel's monitor/loopback/FD settings
against the feature bitmask.  If all channels pass, it succeeds, sets the run
flag true and issues one `CanModeStart` mode command per enabled channel (and
only for enabled channels), with the mode-flag word built from that channel's
settings.  If a channel fails validation, `start` returns `UnsupportedFeature`
naming the failing feature and issues commands only for the enabled channels
before the failing one — the failing channel is never placed on-bus.  In
particular, whenever some channel requests an unsupported feature, `start`
fails with an `UnsupportedFeature` error. -/
theorem start_mode_commands (s : Interface) :
    ((∀ ch ∈ s.channels, supportedCh s.features ch = true) →
       s.start = (.ok { s with running := true }, expectedCmds 0 s.channels)) ∧
    (∀ pre bad post, s.channels = pre ++ bad :: post →
       (∀ ch ∈ pre, supportedCh s.features ch = true) →
       supportedCh s.features bad = false →
       s.start = (.error (.UnsupportedFeature (badName s.features bad)), expectedCmds 0 pre)) ∧
    ((∃ ch ∈ s.channels, supportedCh s.features ch = false) →
       ∃ name, (s.start).1 = .error (.UnsupportedFeature name)) := by
  refine ⟨?_, ?_, ?_⟩
  · intro h
    simp [Interface.start, startChannels_ok s.features s.channels 0 h]
  · intro pre bad post hsplit hpre hbad
    simp [Interface.start, hsplit, startChannels_err s.features bad hbad pre 0 post hpre]
  · intro h
    obtain ⟨pre, bad, post, hsplit, hpre, hbad⟩ := exists_first_bad s.features s.channels h
    refine ⟨badName s.features bad, ?_⟩
    simp [Interface.start, hsplit, startChannels_err s.features bad hbad pre 0 post hpre]

/-- Witness for `start_mode_commands`: over the unconfigured two-channel
device, `start` succeeds, raises the run flag, and issues a start command for
both (enabled) channels. -/
theorem start_mode_commands_witness :
    ifaceTwoCh.start = (.ok { ifaceTwoCh with running := true }, expectedCmds 0 ifaceTwoCh.channels) :=
  (start_mode_commands ifaceTwoCh).1 (by decide)

/-- C1 (amended): `send` while not running fails `NotRunning`.  Of the
configuration setters, only `set_monitor`, `set_enabled`, `set_loopback` and
`set_fd` check the run flag — they fail `Running` while running (once the
earlier capability and channel-bounds checks pass) and leave the
configuration unchanged (an error returns no new state).  `set_bitrate`,
`set_data_bitrate` and `set_bit_timing` perform no run-state check at all:
their behaviour is identical for any value of the run flag. -/
theorem run_state_gating_amended :
    (∀ (s : Interface) (f : Frame), s.running = false → s.send f = .error .NotRunning) ∧
    (∀ (s : Interface) (c : Nat) (e : Bool), s.running = true →
       s.features &&& GS_CAN_FEATURE_LISTEN_ONLY ≠ 0 → c ≤ s.channel_count →
       s.set_monitor c e = .error .Running) ∧
    (∀ (s : Interface) (c : Nat) (e : Bool), s.running = true → c ≤ s.channel_count →
       s.set_enabled c e = .error .Running) ∧
    (∀ (s : Interface) (c : Nat) (e : Bool), s.running = true →
       s.features &&& GS_CAN_FEATURE_LOOP_BACK ≠ 0 → c ≤ s.channel_count →
       s.set_loopback c e = .error .Running) ∧
    (∀ (s : Interface) (c : Nat) (e : Bool), s.running = true →
       s.supports_fd = true → c ≤ s.channel_count →
       s.set_fd c e = .error .Running) ∧
    (∀ (s : Interface) (r : Bool) (c b : Nat),
       ({ s with running := r } : Interface).set_bitrate c b =
         (s.set_bitrate c b).map fun t => { t with running := r }) ∧
    (∀ (s : Interface) (r : Bool) (c b : Nat),
       ({ s with running := r } : Interface).set_data_bitrate c b =
         (s.set_data_bitrate c b).map fun t => { t with running := r }) ∧
    (∀ (s : Interface) (r : Bool) (c brp s1 s2 sjw : Nat),
       ({ s with running := r } : Interface).set_bit_timing c brp s1 s2 sjw =
         (s.set_bit_timing c brp s1 s2 sjw).map fun p => (p.1, { p.2 with running := r })) := by
  refine ⟨?_, ?_, ?_, ?_, ?_, ?_, ?_, ?_⟩
  · intro s f h
    simp [Interface.send, h]
  · intro s c e hrun hfeat hc
    have hnc : ¬ c > s.channel_count := by omega
    simp [Interface.set_monitor, hfeat, hnc, hrun]
  · intro s c e hrun hc
    have hnc : ¬ c > s.channel_count := by omega
    simp [Interface.set_enabled, hnc, hrun]
  · intro s c e hrun hfeat hc
    have hnc : ¬ c > s.channel_count := by omega
    simp [Interface.set_loopback, hfeat, hnc, hrun]
  · intro s c e hrun hfd hc
    have hnc : ¬ c > s.channel_count := by omega
    simp [Interface.set_fd, hfd, hnc, hrun]
  · intro s r c b
    by_cases hc : c > s.channel_count
    · simp [Interface.set_bitrate, hc, Except.map]
    · simp only [Interface.set_bitrate, hc, if_false]
      rcases hcalc : calculate_bit_timing s.can_clock b with e | bt <;> simp [hcalc, Except.map]
  · intro s r c b
    by_cases h0 : s.features &&& GS_CAN_FEATURE_FD = 0
    · simp [Interface.set_data_bitrate, Interface.supports_fd, h0, Except.map]
    · by_cases hc : c > s.channel_count
      · simp [Interface.set_data_bitrate, Interface.supports_fd, h0, hc, Except.map]
      · rcases hcalc : calculate_bit_timing s.can_clock b with e | bt <;>
          simp [Interface.set_data_bitrate, Interface.supports_fd, h0, hc, hcalc, Except.map,
            Nat.pos_of_ne_zero h0]
  · intro s r c brp s1 s2 sjw
    rfl

/-- Witness for `run_state_gating_amended` on the concrete single-channel
device: `send` refused while idle; the four run-checked setters refused while
running. -/
theorem run_state_gating_amended_witness :
    ifaceAll.send Frame.default = .error .NotRunning ∧
    ifaceAllRun.set_monitor 0 true = .error .Running ∧
    ifaceAllRun.set_enabled 0 false = .error .Running ∧
    ifaceAllRun.set_loopback 0 true = .error .Running ∧
    ifaceAllRun.set_fd 0 true = .error .Running :=
  ⟨run_state_gating_amended.1 ifaceAll Frame.default (by decide),
   run_state_gating_amended.2.1 ifaceAllRun 0 true (by decide) (by decide) (by decide),
   run_state_gating_amended.2.2.1 ifaceAllRun 0 false (by decide) (by decide),
   run_state_gating_amended.2.2.2.1 ifaceAllRun 0 true (by decide) (by decide) (by decide),
   run_state_gating_amended.2.2.2.2.1 ifaceAllRun 0 true (by decide) (by decide) (by decide)⟩

/-- Counterexample to C1 as stated: with the run flag true, `set_bitrate`
does not fail `Running` — it succeeds and changes the channel configuration
(bitrate 0 becomes 500000). -/
theorem set_bitrate_while_running_counterexample :
    ifaceAllRun.set_bitrate 0 500000 =
      .ok { ifaceAllRun with channels := [{ defaultChannel with bitrate := 500000 }] } ∧
    ifaceAllRun.set_bitrate 0 500000 ≠ .error .Running := by
  constructor
  · decide
  · decide

/-- C2 (amended): the actual validation precedence.  The feature-gated
setters (`set_monitor`, `set_loopback`, `set_fd`, `set_data_bitrate`) check
device capability FIRST — an absent feature bit yields `UnsupportedFeature`
regardless of the channel index and run flag — then channel bounds, then (for
`set_monitor`/`set_loopback`/`set_fd`) run-state.  `set_enabled` checks
bounds then run-state; `set_bitrate` checks only bounds; `set_bit_timing`
checks nothing.  In particular an out-of-range channel on a device lacking
the relevant feature yields `UnsupportedFeature`, not `InvalidChannel`. -/
theorem setter_precedence_amended :
    (∀ (s : Interface) (c : Nat) (e : Bool), s.features &&& GS_CAN_FEATURE_LISTEN_ONLY = 0 →
       s.set_monitor c e = .error (.UnsupportedFeature "Monitor")) ∧
    (∀ (s : Interface) (c : Nat) (e : Bool), s.features &&& GS_CAN_FEATURE_LOOP_BACK = 0 →
       s.set_loopback c e = .error (.UnsupportedFeature "Loopback")) ∧
    (∀ (s : Interface) (c : Nat) (e : Bool), s.features &&& GS_CAN_FEATURE_FD = 0 →
       s.set_fd c e = .error (.UnsupportedFeature "FD")) ∧
    (∀ (s : Interface) (c b : Nat), s.features &&& GS_CAN_FEATURE_FD = 0 →
       s.set_data_bitrate c b = .error (.UnsupportedFeature "FD")) ∧
    (∀ (s : Interface) (c : Nat) (e : Bool), s.features &&& GS_CAN_FEATURE_LISTEN_ONLY ≠ 0 →
       c > s.channel_count → s.set_monitor c e = .error .InvalidChannel) ∧
    (∀ (s : Interface) (c : Nat) (e : Bool), s.features &&& GS_CAN_FEATURE_LOOP_BACK ≠ 0 →
       c > s.channel_count → s.set_loopback c e = .error .InvalidChannel) ∧
    (∀ (s : Interface) (c : Nat) (e : Bool), s.features &&& GS_CAN_FEATURE_FD ≠ 0 →
       c > s.channel_count → s.set_fd c e = .error .InvalidChannel) ∧
    (∀ (s : Interface) (c b : Nat), s.features &&& GS_CAN_FEATURE_FD ≠ 0 →
       c > s.channel_count → s.set_data_bitrate c b = .error .InvalidChannel) ∧
    (∀ (s : Interface) (c : Nat) (e : Bool), c > s.channel_count →
       s.set_enabled c e = .error .InvalidChannel) ∧
    (∀ (s : Interface) (c b : Nat), c > s.channel_count →
       s.set_bitrate c b = .error .InvalidChannel) := by
  refine ⟨?_, ?_, ?_, ?_, ?_, ?_, ?_, ?_, ?_, ?_⟩
  · intro s c e h
    simp [Interface.set_monitor, h]
  · intro s c e h
    simp [Interface.set_loopback, h]
  · intro s c e h
    simp [Interface.set_fd, Interface.supports_fd, h]
  · intro s c b h
    simp [Interface.set_data_bitrate, Interface.supports_fd, h]
  · intro s c e h hc
    simp [Interface.set_monitor, h, hc]
  · intro s c e h hc
    simp [Interface.set_loopback, h, hc]
  · intro s c e h hc
    simp [Interface.set_fd, Interface.supports_fd, h, hc, Nat.pos_of_ne_zero h]
  · intro s c b h hc
    simp [Interface.set_data_bitrate, Interface.supports_fd, h, hc, Nat.pos_of_ne_zero h]
  · intro s c e hc
    simp [Interface.set_enabled, hc]
  · intro s c b hc
    simp [Interface.set_bitrate, hc]

/-- Witness for `setter_precedence_amended`: capability-first on the
featureless device (even with an out-of-range channel), bounds-second on the
fully featured device, for concrete channel index 5 on a single-channel
device. -/
theorem setter_precedence_amended_witness :
    ifaceNoFeat.set_monitor 5 true = .error (.UnsupportedFeature "Monitor") ∧
    ifaceNoFeat.set_loopback 5 true = .error (.UnsupportedFeature "Loopback") ∧
    ifaceNoFeat.set_fd 5 true = .error (.UnsupportedFeature "FD") ∧
    ifaceNoFeat.set_data_bitrate 5 500000 = .error (.UnsupportedFeature "FD") ∧
    ifaceAll.set_monitor 5 true = .error .InvalidChannel ∧
    ifaceAll.set_enabled 5 true = .error .InvalidChannel ∧
    ifaceAll.set_bitrate 5 500000 = .error .InvalidChannel :=
  ⟨setter_precedence_amended.1 ifaceNoFeat 5 true (by decide),
   setter_precedence_amended.2.1 ifaceNoFeat 5 true (by decide),
   setter_precedence_amended.2.2.1 ifaceNoFeat 5 true (by decide),
   setter_precedence_amended.2.2.2.1 ifaceNoFeat 5 500000 (by decide),
   setter_precedence_amended.2.2.2.2.1 ifaceAll 5 true (by decide) (by decide),
   setter_precedence_amended.2.2.2.2.2.2.2.2.1 ifaceAll 5 true (by decide),
   setter_precedence_amended.2.2.2.2.2.2.2.2.2 ifaceAll 5 500000 (by decide)⟩

/-- Counterexample to C2 as stated: on a device lacking the listen-only
feature, `set_monitor` with the out-of-range channel 5 (the device has one
channel, index 0) returns `UnsupportedFeature`, not `InvalidChannel` — the
capability check precedes the channel-bounds check. -/
theorem monitor_out_of_range_counterexample :
    ifaceNoFeat.set_monitor 5 true = .error (.UnsupportedFeature "Monitor") ∧
    ifaceNoFeat.set_monitor 5 true ≠ .error .InvalidChannel := by
  constructor
  · decide
  · decide

/-- C3 (amended): an out-of-range channel index always yields
`InvalidChannel` regardless of the run flag for `set_bitrate` and
`set_enabled`; for `set_data_bitrate`, `set_monitor`, `set_loopback` and
`set_fd` the same holds provided the device supports the relevant feature
(otherwise `UnsupportedFeature` is returned first); `set_bit_timing` performs
no channel-bounds check at all and succeeds for every index, touching no
channel configuration.  A failing setter returns only an error, so the
channel configurations are unchanged. -/
theorem channel_bounds_amended :
    (∀ (s : Interface) (c b : Nat), c > s.channel_count →
       s.set_bitrate c b = .error .InvalidChannel) ∧
    (∀ (s : Interface) (c : Nat) (e : Bool), c > s.channel_count →
       s.set_enabled c e = .error .InvalidChannel) ∧
    (∀ (s : Interface) (c b : Nat), s.supports_fd = true → c > s.channel_count →
       s.set_data_bitrate c b = .error .InvalidChannel) ∧
    (∀ (s : Interface) (c : Nat) (e : Bool), s.features &&& GS_CAN_FEATURE_LISTEN_ONLY ≠ 0 →
       c > s.channel_count → s.set_monitor c e = .error .InvalidChannel) ∧
    (∀ (s : Interface) (c : Nat) (e : Bool), s.features &&& GS_CAN_FEATURE_LOOP_BACK ≠ 0 →
       c > s.channel_count → s.set_loopback c e = .error .InvalidChannel) ∧
    (∀ (s : Interface) (c : Nat) (e : Bool), s.supports_fd = true → c > s.channel_count →
       s.set_fd c e = .error .InvalidChannel) ∧
    (∀ (s : Interface) (c brp s1 s2 sjw : Nat),
       s.set_bit_timing c brp s1 s2 sjw =
         .ok ((c, { brp := brp, prop_seg := 0, phase_seg1 := s1, phase_seg2 := s2, sjw := sjw }), s)) := by
  refine ⟨?_, ?_, ?_, ?_, ?_, ?_, ?_⟩
  · intro s c b hc
    simp [Interface.set_bitrate, hc]
  · intro s c e hc
    simp [Interface.set_enabled, hc]
  · intro s c b hfd hc
    simp [Interface.set_data_bitrate, hfd, hc]
  · intro s c e h hc
    simp [Interface.set_monitor, h, hc]
  · intro s c e h hc
    simp [Interface.set_loopback, h, hc]
  · intro s c e hfd hc
    simp [Interface.set_fd, hfd, hc]
  · intro s c brp s1 s2 sjw
    rfl

/-- Witness for `channel_bounds_amended` at channel index 1 on the
single-channel running device — `InvalidChannel` regardless of run state. -/
theorem channel_bounds_amended_witness :
    ifaceAllRun.set_bitrate 1 500000 = .error .InvalidChannel ∧
    ifaceAllRun.set_enabled 1 false = .error .InvalidChannel ∧
    ifaceAllRun.set_data_bitrate 1 2000000 = .error .InvalidChannel ∧
    ifaceAllRun.set_monitor 1 true = .error .InvalidChannel ∧
    ifaceAllRun.set_loopback 1 true = .error .InvalidChannel ∧
    ifaceAllRun.set_fd 1 true = .error .InvalidChannel :=
  ⟨channel_bounds_amended.1 ifaceAllRun 1 500000 (by decide),
   channel_bounds_amended.2.1 ifaceAllRun 1 false (by decide),
   channel_bounds_amended.2.2.1 ifaceAllRun 1 2000000 (by decide) (by decide),
   channel_bounds_amended.2.2.2.1 ifaceAllRun 1 true (by decide) (by decide),
   channel_bounds_amended.2.2.2.2.1 ifaceAllRun 1 true (by decide) (by decide),
   channel_bounds_amended.2.2.2.2.2.1 ifaceAllRun 1 true (by decide) (by decide)⟩

/-- Counterexample to C3 as stated: `set_bit_timing` with the out-of-range
channel 5 on a single-channel device does not fail `InvalidChannel` — it
succeeds (no channel-bounds check exists in it). -/
theorem set_bit_timing_out_of_range_counterexample :
    ifaceAll.set_bit_timing 5 1 15 8 1 =
      .ok ((5, { brp := 1, prop_seg := 0, phase_seg1 := 15, phase_seg2 := 8, sjw := 1 }), ifaceAll) ∧
    ifaceAll.set_bit_timing 5 1 15 8 1 ≠ .error .InvalidChannel := by
  constructor
  · rfl
  · decide
